import Mathlib

/-!
Verification development for the musee-api repository (TypeScript, Bun + Hono).

The definitions below are a shallow embedding of the code in
src/download.ts, src/tracks.ts and src/lyrics.ts:

* pure helpers (regular-expression matching, number parsing) are embedded as
  executable Lean functions over lists of characters;
* the asynchronous orchestration run of a download task is embedded as a
  function of an explicit environment record that supplies the outcome of
  every external effect (subprocess runs, database statements, the lyrics
  network call), together with the list of task-state snapshots visible at
  the suspension points of the run;
* HTTP responses are embedded as a record of status, header list and body.
-/

namespace Musee

/-- Result of the JavaScript number pipeline: either a numeric value
(modelled as a rational; all numbers reaching it here are exact decimals)
or the IEEE NaN produced by a failed parse. -/
inductive JsNum where
  | nan : JsNum
  | num : ℚ → JsNum
deriving DecidableEq

/-- Character class of the JavaScript regex escape `\s` (whitespace). -/
def isJsSpace (c : Char) : Bool :=
  c = ' ' || c = '\t' || c = '\n' || c = '\r' || c.val = 0x0B || c.val = 0x0C ||
  c.val = 0xA0 || c.val = 0x1680 || (0x2000 ≤ c.val && c.val ≤ 0x200A) ||
  c.val = 0x2028 || c.val = 0x2029 || c.val = 0x202F || c.val = 0x205F ||
  c.val = 0x3000 || c.val = 0xFEFF

/-- Character class `[\d.]` used by the progress regex. -/
def isDigitDot (c : Char) : Bool :=
  c.isDigit || c = '.'

/-- Character class `[\w-]` used by the YouTube id regex
(`\w` is ASCII letters, digits and underscore). -/
def wordOrDash (c : Char) : Bool :=
  c.isAlphanum || c = '_' || c = '-'

/-- Match a literal character sequence at the head of the input and return
the remaining input on success. -/
def matchLit : List Char → List Char → Option (List Char)
  | [], s => some s
  | _ :: _, [] => none
  | l :: ls, c :: cs => if c = l then matchLit ls cs else none

/-- Numeric value of a digit string (base 10). -/
def natOfDigits (cs : List Char) : ℕ :=
  cs.foldl (fun a c => 10 * a + (c.toNat - '0'.toNat)) 0

/-- Exact value of the decimal numeral with integer digits ip and
fractional digits fp, that is ip + fp/10^(length fp), written as one
quotient so that it evaluates by kernel reduction. -/
def decValue (ip fp : List Char) : ℚ :=
  mkRat (natOfDigits ip * 10 ^ fp.length + natOfDigits fp) (10 ^ fp.length)

/-- JavaScript Number.parseFloat restricted to arguments drawn from the
character class `[\d.]*` (the only arguments it receives in this code:
captures of the progress regex). It parses the longest prefix of the form
digits+ optionally followed by a point and more digits, or a point followed
by digits; everything after that prefix is ignored; if no such prefix
exists the result is NaN. The exact rational value of the decimal numeral
is returned; the double rounding performed by the host language is not
modelled. -/
def parseFloatDD (cs : List Char) : JsNum :=
  let ip := cs.span Char.isDigit
  if ip.1.isEmpty then
    match ip.2 with
    | '.' :: r2 =>
      let fp := r2.span Char.isDigit
      if fp.1.isEmpty then JsNum.nan else JsNum.num (decValue [] fp.1)
    | _ => JsNum.nan
  else
    match ip.2 with
    | '.' :: r2 =>
      let fp := r2.span Char.isDigit
      JsNum.num (decValue ip.1 fp.1)
    | _ => JsNum.num (decValue ip.1 [])

/-- One attempt of the regex `\[download\]\s+([\d.]+)%` at the current
position: the literal, then a nonempty whitespace run, then a nonempty
`[\d.]` run that must be followed by a percent sign; the `[\d.]` run is the
capture. Because the characters allowed after each greedy repetition are
disjoint from the repeated class, maximal munch coincides with the
backtracking semantics of the JavaScript engine. -/
def progressTryAt (cs : List Char) : Option (List Char) :=
  match matchLit "[download]".toList cs with
  | none => none
  | some r1 =>
    let ws := r1.span isJsSpace
    if ws.1.isEmpty then none
    else
      let tok := ws.2.span isDigitDot
      if tok.1.isEmpty then none
      else
        match tok.2 with
        | '%' :: _ => some tok.1
        | _ => none

/-- Leftmost match of the progress regex: try every position left to
right. -/
def progressScan : List Char → Option (List Char)
  | [] => none
  | c :: cs =>
    match progressTryAt (c :: cs) with
    | some tok => some tok
    | none => progressScan cs

/-- Embedding of parseProgress from src/download.ts:
match the line against `\[download\]\s+([\d.]+)%` and feed the capture to
Number.parseFloat; no match gives null (none). It is a total function. -/
def parseProgress (line : String) : Option JsNum :=
  (progressScan line.toList).map parseFloatDD

/-- One attempt of the regex
`(?:youtube\.com\/watch\?v=|youtu\.be\/|youtube\.com\/embed\/)([\w-]{11})`
at the current position. The three literal alternatives are pairwise
incompatible at a fixed position, so trying them in order is the exact
backtracking semantics; the capture is the following run of exactly 11
word-or-hyphen characters. -/
def ytTryAt (cs : List Char) : Option (List Char) :=
  let rest? :=
    match matchLit "youtube.com/watch?v=".toList cs with
    | some r => some r
    | none =>
      match matchLit "youtu.be/".toList cs with
      | some r => some r
      | none => matchLit "youtube.com/embed/".toList cs
  match rest? with
  | none => none
  | some r =>
    let cap := r.take 11
    if cap.length = 11 && cap.all wordOrDash then some cap else none

/-- Leftmost match of the YouTube id regex. -/
def ytScan : List Char → Option (List Char)
  | [] => none
  | c :: cs =>
    match ytTryAt (c :: cs) with
    | some cap => some cap
    | none => ytScan cs

/-- Embedding of extractYoutubeId from src/download.ts: the first capture
of the YouTube id regex, or null (none) when the regex does not match. -/
def extractYoutubeId (url : String) : Option String :=
  (ytScan url.toList).map fun l => String.mk l

/-- Claim-side definition (named after the wording of the specification,
not taken from the source): the exact value of a well-formed nonnegative
float numeral, i.e. digits+ optionally followed by a point and digits+;
none for any other string. Used to compare the behaviour promised by the
specification with the parseFloat based behaviour of the code. -/
def specFloatVal? (cs : List Char) : Option ℚ :=
  let ip := cs.span Char.isDigit
  if ip.1.isEmpty then none
  else
    match ip.2 with
    | [] => some (decValue ip.1 [])
    | '.' :: fp =>
      if fp.isEmpty then none
      else if fp.all Char.isDigit then some (decValue ip.1 fp) else none
    | _ => none

/-- Claim-side definition (from the wording of the specification): does the
pattern of the literal string bracket-download-bracket, then nonempty
whitespace, then a well-formed nonnegative float numeral, then a percent
sign, occur at the head of the input? Since a float numeral contains no
percent sign and starts with a digit, the numeral must be exactly the text
between the whitespace run and the next percent sign. -/
def specProgressAt (cs : List Char) : Bool :=
  match matchLit "[download]".toList cs with
  | none => false
  | some r1 =>
    let ws := r1.span isJsSpace
    if ws.1.isEmpty then false
    else
      let tok := ws.2.span (fun c => !(c = '%'))
      match tok.2 with
      | '%' :: _ => (specFloatVal? tok.1).isSome
      | _ => false

/-- Claim-side definition: the line contains the specification progress
pattern at some position. -/
def specHasProgressPattern (line : String) : Bool :=
  go line.toList
where
  go : List Char → Bool
    | [] => false
    | c :: cs => specProgressAt (c :: cs) || go cs

/-- One attempt of the Range header regex `bytes=(\d+)-(\d*)` of
src/tracks.ts at the current position: the literal, a nonempty digit run
(first capture), a hyphen, and a possibly empty digit run (second
capture). Greedy repetition equals maximal munch here because a digit run
can only be followed by the hyphen or the end of the pattern. -/
def rangeTryAt (cs : List Char) : Option (List Char × List Char) :=
  match matchLit "bytes=".toList cs with
  | none => none
  | some r =>
    let d1 := r.span Char.isDigit
    if d1.1.isEmpty then none
    else
      match d1.2 with
      | '-' :: r3 => some (d1.1, (r3.span Char.isDigit).1)
      | _ => none

/-- Leftmost match of the Range header regex. -/
def rangeScan : List Char → Option (List Char × List Char)
  | [] => none
  | c :: cs =>
    match rangeTryAt (c :: cs) with
    | some caps => some caps
    | none => rangeScan cs

/-- The two captures of the first match of `bytes=(\d+)-(\d*)` in the
header value, as strings, or none when the regex does not match. -/
def rangeMatch (s : String) : Option (String × String) :=
  (rangeScan s.toList).map fun p => (String.mk p.1, String.mk p.2)

/-- A stored audio file as the stream handler sees it: its bytes (modelled
as characters, one per byte) and the content type Bun derives from the
file name, the empty string when undetermined. -/
structure StreamFile where
  bytes : List Char
  mime : String
deriving DecidableEq

/-- An HTTP response: status code, the header list in the order the
handler writes it, and the body bytes. -/
structure HttpResponse where
  status : ℕ
  headers : List (String × String)
  body : List Char
deriving DecidableEq

/-- Value of a header in a response, by name. -/
def HttpResponse.header (r : HttpResponse) (name : String) : Option String :=
  (r.headers.find? fun p => p.1 == name).map Prod.snd

/-- The content type the handler sends: the file type with the generic
audio/ogg fallback when Bun reports an empty type
(the expression file.type or audio/ogg in src/tracks.ts). -/
def contentTypeOf (f : StreamFile) : String :=
  if f.mime = "" then "audio/ogg" else f.mime

/-- Blob.slice(start, end) on the file bytes for the arguments arising in
the stream handler (start is parsed from digits, hence nonnegative, and
the end argument is at least 0): the bytes with index in [start, end),
clamped to the actual size. -/
def blobSlice (bytes : List Char) (a b : ℤ) : List Char :=
  (bytes.take b.toNat).drop a.toNat

/-- Embedding of the streamTrack handler of src/tracks.ts after the track
has been found (the claims about it all concern an existing track; for an
unknown id the handler returns 404 before reaching this code). Follows the
source line by line: an absent or empty Range header, or one the regex
does not match, yields the full body with status 200; otherwise the first
captured range is served with status 206, the end defaulting to size - 1,
with Content-Range and Content-Length computed from the requested numbers
and the body clamped to the file by Blob.slice. -/
def streamTrack (f : StreamFile) (range : Option String) : HttpResponse :=
  let fileSize : ℤ := f.bytes.length
  let full : HttpResponse :=
    { status := 200
      headers := [("Accept-Ranges", "bytes"),
                  ("Content-Length", toString fileSize),
                  ("Content-Type", contentTypeOf f)]
      body := f.bytes }
  match range with
  | none => full
  | some hdr =>
    if hdr = "" then full
    else
      match rangeMatch hdr with
      | none => full
      | some caps =>
        let start : ℤ := natOfDigits caps.1.toList
        let endI : ℤ := if caps.2 = "" then fileSize - 1 else natOfDigits caps.2.toList
        { status := 206
          headers := [("Content-Range",
                        "bytes " ++ toString start ++ "-" ++ toString endI ++ "/" ++
                          toString fileSize),
                      ("Accept-Ranges", "bytes"),
                      ("Content-Length", toString (endI - start + 1)),
                      ("Content-Type", contentTypeOf f)]
          body := blobSlice f.bytes start (endI + 1) }

/-- A catalog row, mirroring the Track interface of src/types.ts. -/
structure Track where
  id : ℤ
  title : String
  artist : String
  album : Option String
  duration : Option ℤ
  youtube_url : Option String
  youtube_id : Option String
  filename : String
  file_size : Option ℤ
  format : String
  thumbnail : Option String
  created_at : String
  updated_at : String
deriving DecidableEq

/-- One search result of the lrclib service, mirroring the LrclibResult
interface of src/types.ts. -/
structure LrclibResult where
  trackName : String
  artistName : String
  syncedLyrics : Option String
  plainLyrics : Option String
deriving DecidableEq

/-- The value searchLrclib resolves with on success. -/
structure LyricsHit where
  content : String
  isSynced : Bool
deriving DecidableEq

/-- JavaScript truthiness of a nullable string: false for null and for the
empty string. -/
def optStrTruthy : Option String → Bool
  | some s => !(s == "")
  | none => false

/-- Embedding of searchLrclib from src/lyrics.ts. Its single effect, the
network fetch plus JSON decode, is an argument: either a thrown error or
the decoded result list. The function itself wraps everything in a
try/catch that resolves with null, so it never throws: an empty result
list gives none; otherwise the first result with a truthy syncedLyrics
wins, else the first with a truthy plainLyrics, else none. -/
def searchLrclib (fetchRes : Except String (List LrclibResult)) : Option LyricsHit :=
  match fetchRes with
  | Except.error _ => none
  | Except.ok results =>
    if results.length = 0 then none
    else
      let plain : Option LyricsHit :=
        match results.find? (fun r => optStrTruthy r.plainLyrics) with
        | some r =>
          match r.plainLyrics with
          | some s => if s = "" then none else some ⟨s, false⟩
          | none => none
        | none => none
      match results.find? (fun r => optStrTruthy r.syncedLyrics) with
      | some r =>
        match r.syncedLyrics with
        | some s => if s = "" then plain else some ⟨s, true⟩
        | none => plain
      | none => plain

/-- Task lifecycle states, mirroring the status union of src/types.ts. -/
inductive TaskStatus where
  | pending
  | downloading
  | processing
  | completed
  | failed
deriving DecidableEq

/-- A download task, mirroring the DownloadTask interface of
src/types.ts. The progress field carries the values Number.parseFloat
produced. -/
structure DownloadTask where
  id : String
  url : String
  status : TaskStatus
  progress : JsNum
  trackId : Option ℤ
  error : Option String
  createdAt : ℤ
deriving DecidableEq

/-- The process-wide task registry, a map from task id to task. -/
abbrev TaskMap := List (String × DownloadTask)

/-- Embedding of createTask from src/download.ts. The generated uuid and
the current time are arguments; the new task starts pending with progress
0 and null trackId and error, and is inserted into the registry. -/
def createTask (tasks : TaskMap) (uuid : String) (now : ℤ) (url : String) :
    DownloadTask × TaskMap :=
  let task : DownloadTask :=
    { id := uuid, url := url, status := TaskStatus.pending, progress := JsNum.num 0,
      trackId := none, error := none, createdAt := now }
  (task, (uuid, task) :: tasks)

/-- Metadata fields the code reads from the JSON the probe prints
(title, uploader, channel, duration). -/
structure MetaFields where
  title : Option String
  uploader : Option String
  channel : Option String
  duration : Option ℚ
deriving DecidableEq

/-- Outcomes of every external effect one orchestration run performs, in
program order. Thrown errors are modelled by their message after the
(err instanceof Error) mapping of the catch block. -/
structure Env where
  /-- Metadata probe subprocess: spawn, stdout read and exit wait; a
  thrown error aborts the run into the catch block. The exit code of the
  probe is ignored by the code, so it is not part of the model. -/
  metaProbe : Except String Unit
  /-- Outcome of JSON.parse on the probe output: none when the parse threw
  (the inner catch then keeps the placeholder values). -/
  meta : Option MetaFields
  /-- The complete lines delivered by the stdout stream of the download
  subprocess, in order. -/
  dlLines : List String
  /-- A stream-read error thrown after those lines, if any. -/
  dlErr : Option String
  /-- Exit code of the download subprocess. -/
  exitCode : ℤ
  /-- Captured stderr text of the download subprocess. -/
  stderrText : String
  /-- Bun.file(outputPath).size, 0 for a missing file. -/
  fileSize : ℤ
  /-- The tracks INSERT with RETURNING: a thrown database error, or the
  returned row as typed in the source (Track or null). -/
  insertRes : Except String (Option Track)
  /-- The fetch plus JSON decode inside searchLrclib. -/
  lrcFetch : Except String (List LrclibResult)
  /-- The lyrics INSERT: ok or a thrown database error. -/
  lyricsInsert : Except String Unit

/-- The well-formedness fact this model takes from the database layer: an
INSERT with a RETURNING clause yields exactly one row when it succeeds
(bun-sqlite .get returns that row, and throws on constraint violations),
so a successful insert never returns null. The source still guards for
null because the generic .get signature is nullable. -/
def Env.InsertWF (e : Env) : Prop :=
  e.insertRes ≠ Except.ok none

/-- The values bound to the placeholders of the tracks INSERT statement. -/
structure InsertArgs where
  title : String
  artist : String
  duration : Option ℤ
  youtube_url : String
  youtube_id : String
  filename : String
  file_size : ℤ
  format : String
deriving DecidableEq

/-- What one orchestration run produced: the final task state, the task
states observable at the suspension points of the run (every await; the
mutations between two awaits are atomic for the event loop), whether the
tracks INSERT statement ran and which row it returned, and whether a
lyrics row was inserted. -/
structure RunOutput where
  snapshots : List DownloadTask
  final : DownloadTask
  insertArgs : Option InsertArgs
  insertedRow : Option Track
  lyricsInserted : Bool

/-- The progress loop of runDownload: each line is fed to parseProgress
and a non-null result overwrites the progress field; the task state after
each line is recorded as a snapshot (the stream reads suspend between
chunks). -/
def progressSteps (t : DownloadTask) : List String → DownloadTask × List DownloadTask
  | [] => (t, [])
  | line :: rest =>
    let t2 :=
      match parseProgress line with
      | some v => { t with progress := v }
      | none => t
    let ps := progressSteps t2 rest
    (ps.1, t2 :: ps.2)

/-- The message of the error thrown on a non-zero exit code of the
download subprocess, template yt-dlp exited with code C: S. -/
def ytExitMsg (code : ℤ) (stderrText : String) : String :=
  "yt-dlp exited with code " ++ toString code ++ ": " ++ stderrText

/-- Embedding of runDownload from src/download.ts, driven by an
environment that fixes the outcome of each external effect. Follows the
source: transition to downloading; metadata probe with best-effort JSON
parse (placeholders Unknown on failure, duration truthiness-guarded and
rounded); the progress loop; a non-zero exit code throws with the captured
stderr; transition to processing, stat the file and run the catalog
INSERT; record the returned row id on the task; best-effort lyrics search
and insert in an inner try/catch; transition to completed with progress
100. Any error of the try body is caught and turns the task failed with
the message as its error. -/
def runDownload (env : Env) (task : DownloadTask) (youtubeId : String) (format : String) :
    RunOutput :=
  let t1 := { task with status := TaskStatus.downloading }
  let filename := youtubeId ++ "." ++ format
  match env.metaProbe with
  | Except.error e =>
    { snapshots := [t1]
      final := { t1 with status := TaskStatus.failed, error := some e }
      insertArgs := none, insertedRow := none, lyricsInserted := false }
  | Except.ok _ =>
    let title := (env.meta.bind MetaFields.title).getD "Unknown"
    let artist :=
      ((env.meta.bind MetaFields.uploader).orElse
        (fun _ => env.meta.bind MetaFields.channel)).getD "Unknown"
    let duration : Option ℤ :=
      match env.meta.bind MetaFields.duration with
      | some d => if d = 0 then none else some (round d)
      | none => none
    let ps := progressSteps t1 env.dlLines
    let t2 := ps.1
    let snaps := t1 :: ps.2
    match env.dlErr with
    | some e =>
      { snapshots := snaps ++ [t2]
        final := { t2 with status := TaskStatus.failed, error := some e }
        insertArgs := none, insertedRow := none, lyricsInserted := false }
    | none =>
      if env.exitCode ≠ 0 then
        { snapshots := snaps ++ [t2]
          final := { t2 with status := TaskStatus.failed,
                             error := some (ytExitMsg env.exitCode env.stderrText) }
          insertArgs := none, insertedRow := none, lyricsInserted := false }
      else
        let t3 := { t2 with status := TaskStatus.processing }
        let args : InsertArgs :=
          { title := title, artist := artist, duration := duration,
            youtube_url := task.url, youtube_id := youtubeId, filename := filename,
            file_size := env.fileSize, format := format }
        match env.insertRes with
        | Except.error e =>
          { snapshots := snaps ++ [t2]
            final := { t3 with status := TaskStatus.failed, error := some e }
            insertArgs := some args, insertedRow := none, lyricsInserted := false }
        | Except.ok none =>
          { snapshots := snaps ++ [t2]
            final := { t3 with status := TaskStatus.completed, progress := JsNum.num 100 }
            insertArgs := some args, insertedRow := none, lyricsInserted := false }
        | Except.ok (some row) =>
          let t4 := { t3 with trackId := some row.id }
          let inserted :=
            match searchLrclib env.lrcFetch, env.lyricsInsert with
            | some _, Except.ok _ => true
            | _, _ => false
          { snapshots := snaps ++ [t2, t4]
            final := { t4 with status := TaskStatus.completed, progress := JsNum.num 100 }
            insertArgs := some args, insertedRow := some row, lyricsInserted := inserted }

/-- The duplicate lookup of the POST handler: SELECT id FROM tracks WHERE
youtube_id equals the extracted id, first matching row in table order. -/
def findByYoutubeId (db : List Track) (yid : String) : Option Track :=
  db.find? fun t => t.youtube_id == some yid

/-- Result body of the POST download handler. -/
inductive PostDownloadRes where
  | invalidUrl
  | conflict (track_id : ℤ)
  | accepted (task_id : String)
deriving DecidableEq

/-- Observable outcome of one POST download request: response body and
status, the registry afterwards, and the arguments of the runDownload
invocation it started, if any. -/
structure PostOutcome where
  res : PostDownloadRes
  status : ℕ
  tasks : TaskMap
  started : Option (DownloadTask × String × String)

/-- Embedding of the POST download handler of src/download.ts, after body
validation: extract the YouTube id (400 on failure), reject with 409 and
the existing row id when the catalog already has that id, otherwise create
the task, start runDownload detached, and answer 202 with the task id. -/
def postDownload (db : List Track) (tasks : TaskMap) (uuid : String) (now : ℤ)
    (url : String) (fmt : Option String) : PostOutcome :=
  match extractYoutubeId url with
  | none => { res := PostDownloadRes.invalidUrl, status := 400, tasks := tasks, started := none }
  | some yid =>
    match findByYoutubeId db yid with
    | some row =>
      { res := PostDownloadRes.conflict row.id, status := 409, tasks := tasks, started := none }
    | none =>
      let format := fmt.getD "opus"
      let ct := createTask tasks uuid now url
      { res := PostDownloadRes.accepted ct.1.id, status := 202, tasks := ct.2,
        started := some (ct.1, yid, format) }

/-- A concrete catalog row used by the concrete evaluations below. -/
def sampleTrack : Track :=
  { id := 1, title := "Sample Title", artist := "Sample Artist", album := none,
    duration := some 180, youtube_url := some "https://youtu.be/dQw4w9WgXcQ",
    youtube_id := some "dQw4w9WgXcQ", filename := "dQw4w9WgXcQ.opus",
    file_size := some 1024, format := "opus", thumbnail := none,
    created_at := "2026-01-01 00:00:00", updated_at := "2026-01-01 00:00:00" }

/-- A concrete environment for a fully successful run in which the lyrics
lookup fails with a network error. -/
def envOk : Env :=
  { metaProbe := Except.ok (), meta := none,
    dlLines := ["[download]  45.2% of 5.00MiB", "[download] 100% of 5.00MiB"],
    dlErr := none, exitCode := 0, stderrText := "", fileSize := 1024,
    insertRes := Except.ok (some sampleTrack),
    lrcFetch := Except.error "fetch failed: network unreachable",
    lyricsInsert := Except.ok () }

/-- A concrete environment for a run whose download subprocess exits with
code 1. -/
def envExit1 : Env :=
  { metaProbe := Except.ok (), meta := none,
    dlLines := ["[download]  45.2% of 5.00MiB"],
    dlErr := none, exitCode := 1, stderrText := "ERROR: unable to download video data",
    fileSize := 0, insertRes := Except.ok none,
    lrcFetch := Except.ok [], lyricsInsert := Except.ok () }

/-- The fresh task the concrete runs below start from. -/
def sampleTask : DownloadTask :=
  (createTask [] "task-uuid-1" 1700000000000 "https://www.youtube.com/watch?v=dQw4w9WgXcQ").1

end Musee

namespace Musee

/-! ## Shared lemmas -/

/-- The progress loop touches only the progress field: the status, trackId
and error of its result and of every snapshot it records agree with the
input task. -/
theorem progressSteps_fields (lines : List String) (t : DownloadTask) :
    ((progressSteps t lines).1.status = t.status ∧
      (progressSteps t lines).1.trackId = t.trackId ∧
      (progressSteps t lines).1.error = t.error) ∧
    ∀ s ∈ (progressSteps t lines).2,
      s.status = t.status ∧ s.trackId = t.trackId ∧ s.error = t.error := by
  induction lines generalizing t with
  | nil => simp [progressSteps]
  | cons line rest ih =>
    cases hp : parseProgress line with
    | none =>
      have h1 := ih t
      simp only [progressSteps, hp]
      refine ⟨h1.1, ?_⟩
      intro s hs
      rcases List.mem_cons.mp hs with h2 | h2
      · subst h2; exact ⟨rfl, rfl, rfl⟩
      · exact h1.2 s h2
    | some v =>
      have h1 := ih { t with progress := v }
      simp only [progressSteps, hp]
      refine ⟨h1.1, ?_⟩
      intro s hs
      rcases List.mem_cons.mp hs with h2 | h2
      · subst h2; exact ⟨rfl, rfl, rfl⟩
      · exact h1.2 s h2

/-- An empty header never matches the range regex. -/
theorem rangeMatch_empty : rangeMatch "" = none := by decide

/-! ## Claim theorems -/

/-- C8: extractYoutubeId maps the standard watch URL, the short youtu.be
URL and the watch URL with a trailing list parameter to dQw4w9WgXcQ, and
maps an unrelated URL and a non-URL to none. -/
theorem extractYoutubeId_examples :
    extractYoutubeId "https://www.youtube.com/watch?v=dQw4w9WgXcQ" = some "dQw4w9WgXcQ" ∧
    extractYoutubeId "https://youtu.be/dQw4w9WgXcQ" = some "dQw4w9WgXcQ" ∧
    extractYoutubeId "https://www.youtube.com/watch?v=dQw4w9WgXcQ&list=PLtest" =
      some "dQw4w9WgXcQ" ∧
    extractYoutubeId "https://example.com" = none ∧
    extractYoutubeId "not a url" = none := by decide

/-- C6: when the URL yields an external id that is already catalogued, the
POST download handler answers 409 carrying the existing row id, leaves the
registry unchanged, and starts no orchestration run; the duplicate lookup
happens before any task is created. -/
theorem postDownload_conflict (db : List Track) (tasks : TaskMap) (uuid : String)
    (now : ℤ) (url : String) (fmt : Option String) (yid : String) (row : Track)
    (h1 : extractYoutubeId url = some yid)
    (h2 : findByYoutubeId db yid = some row) :
    postDownload db tasks uuid now url fmt =
      { res := PostDownloadRes.conflict row.id, status := 409,
        tasks := tasks, started := none } := by
  simp [postDownload, h1, h2]

/-- C6 witness: a concrete duplicate submission is rejected with 409 and
the existing row id 1, with no new task and no run started. -/
theorem postDownload_conflict_witness :
    postDownload [sampleTrack] [] "task-uuid-2" 0
        "https://www.youtube.com/watch?v=dQw4w9WgXcQ" none =
      { res := PostDownloadRes.conflict 1, status := 409, tasks := [], started := none } :=
  postDownload_conflict [sampleTrack] [] "task-uuid-2" 0
    "https://www.youtube.com/watch?v=dQw4w9WgXcQ" none "dQw4w9WgXcQ" sampleTrack
    (by decide) (by decide)

/-- C2 counterexample: a multi-range header is not served with the full
body and status 200 as the claim states; the handler matches the first
range of the header and answers 206 with just those bytes. -/
theorem streamTrack_multirange_counterexample :
    streamTrack ⟨"0123456789abcdef".toList, ""⟩ (some "bytes=0-4,10-14") =
      { status := 206,
        headers := [("Content-Range", "bytes 0-4/16"), ("Accept-Ranges", "bytes"),
                    ("Content-Length", "5"), ("Content-Type", "audio/ogg")],
        body := "01234".toList } := by decide

/-- C2 (amended): a stream request on an existing track with no Range
header, an empty Range header, or a Range header in which the range regex
finds no match, is answered with the full file body, status 200,
Accept-Ranges bytes, Content-Length equal to the file size and the content
type falling back to audio/ogg when undetermined; a header containing a
parseable range (including the first range of a multi-range header) is
answered 206 instead. -/
theorem streamTrack_fullBody (f : StreamFile) (range : Option String)
    (h : ∀ s, range = some s → rangeMatch s = none) :
    streamTrack f range =
      { status := 200,
        headers := [("Accept-Ranges", "bytes"),
                    ("Content-Length", toString (f.bytes.length : ℤ)),
                    ("Content-Type", if f.mime = "" then "audio/ogg" else f.mime)],
        body := f.bytes } := by
  cases range with
  | none => rfl
  | some s =>
    by_cases hs : s = ""
    · subst hs
      simp [streamTrack, contentTypeOf]
    · simp [streamTrack, hs, h s rfl, contentTypeOf]

/-- C2 witness: a request without a Range header on a 16 byte file of
undetermined type gets 200, the whole body, Content-Length 16 and the
audio/ogg fallback. -/
theorem streamTrack_fullBody_witness :
    streamTrack ⟨"0123456789abcdef".toList, ""⟩ none =
      { status := 200,
        headers := [("Accept-Ranges", "bytes"), ("Content-Length", "16"),
                    ("Content-Type", "audio/ogg")],
        body := "0123456789abcdef".toList } :=
  streamTrack_fullBody ⟨"0123456789abcdef".toList, ""⟩ none
    (fun _ hs => Option.noConfusion hs)

/-- Full shape of the 206 response for a matched Range header, shared by
the single-range and the no-416 theorems below. -/
theorem streamTrack_range_eq (f : StreamFile) (hdr g1 g2 : String)
    (h : rangeMatch hdr = some (g1, g2)) :
    streamTrack f (some hdr) =
      { status := 206,
        headers :=
          [("Content-Range",
            "bytes " ++ toString (natOfDigits g1.toList : ℤ) ++ "-" ++
              toString (if g2 = "" then (f.bytes.length : ℤ) - 1
                        else (natOfDigits g2.toList : ℤ)) ++ "/" ++
              toString (f.bytes.length : ℤ)),
           ("Accept-Ranges", "bytes"),
           ("Content-Length",
            toString ((if g2 = "" then (f.bytes.length : ℤ) - 1
                       else (natOfDigits g2.toList : ℤ)) -
              (natOfDigits g1.toList : ℤ) + 1)),
           ("Content-Type", if f.mime = "" then "audio/ogg" else f.mime)],
        body :=
          (f.bytes.take ((if g2 = "" then (f.bytes.length : ℤ) - 1
                          else (natOfDigits g2.toList : ℤ)) + 1).toNat).drop
            (natOfDigits g1.toList : ℤ).toNat } := by
  have hne : hdr ≠ "" := by
    intro h0
    rw [h0, rangeMatch_empty] at h
    exact Option.noConfusion h
  simp [streamTrack, hne, h, blobSlice, contentTypeOf]

/-- C4: a stream request on an existing track whose Range header parses as
bytes equals start hyphen optional end is answered 206 with Content-Range
built from the requested start, the end (defaulting to size minus one) and
the size, Accept-Ranges bytes, Content-Length equal to end minus start
plus one, and as body the bytes of the file with index between start and
end inclusive. -/
theorem streamTrack_range (f : StreamFile) (hdr g1 g2 : String)
    (h : rangeMatch hdr = some (g1, g2)) :
    streamTrack f (some hdr) =
      { status := 206,
        headers :=
          [("Content-Range",
            "bytes " ++ toString (natOfDigits g1.toList : ℤ) ++ "-" ++
              toString (if g2 = "" then (f.bytes.length : ℤ) - 1
                        else (natOfDigits g2.toList : ℤ)) ++ "/" ++
              toString (f.bytes.length : ℤ)),
           ("Accept-Ranges", "bytes"),
           ("Content-Length",
            toString ((if g2 = "" then (f.bytes.length : ℤ) - 1
                       else (natOfDigits g2.toList : ℤ)) -
              (natOfDigits g1.toList : ℤ) + 1)),
           ("Content-Type", if f.mime = "" then "audio/ogg" else f.mime)],
        body :=
          (f.bytes.take ((if g2 = "" then (f.bytes.length : ℤ) - 1
                          else (natOfDigits g2.toList : ℤ)) + 1).toNat).drop
            (natOfDigits g1.toList : ℤ).toNat } :=
  streamTrack_range_eq f hdr g1 g2 h

/-- C4 witness: the range bytes equals 0 hyphen 9 against the 16 byte
resource 0123456789abcdef yields 206, Content-Range bytes 0-9/16,
Content-Length 10 and exactly the ten bytes 0123456789. -/
theorem streamTrack_range_witness :
    streamTrack ⟨"0123456789abcdef".toList, ""⟩ (some "bytes=0-9") =
      { status := 206,
        headers := [("Content-Range", "bytes 0-9/16"), ("Accept-Ranges", "bytes"),
                    ("Content-Length", "10"), ("Content-Type", "audio/ogg")],
        body := "0123456789".toList } := by
  have h := streamTrack_range ⟨"0123456789abcdef".toList, ""⟩ "bytes=0-9" "0" "9"
    (by decide)
  rw [h]
  decide

/-- C9 (implicit): any Range header the regex matches is answered 206 no
matter whether the requested positions lie inside the file: Content-Range
and Content-Length are computed from the requested numbers without
clamping (only the body is clamped by the slice), and no response of the
handler ever carries status 416. -/
theorem streamTrack_no416 (f : StreamFile) (hdr g1 g2 : String)
    (h : rangeMatch hdr = some (g1, g2)) :
    (streamTrack f (some hdr)).status = 206 ∧
    (streamTrack f (some hdr)).header "Content-Range" =
      some ("bytes " ++ toString (natOfDigits g1.toList : ℤ) ++ "-" ++
        toString (if g2 = "" then (f.bytes.length : ℤ) - 1
                  else (natOfDigits g2.toList : ℤ)) ++ "/" ++
        toString (f.bytes.length : ℤ)) ∧
    (streamTrack f (some hdr)).header "Content-Length" =
      some (toString ((if g2 = "" then (f.bytes.length : ℤ) - 1
                       else (natOfDigits g2.toList : ℤ)) -
        (natOfDigits g1.toList : ℤ) + 1)) ∧
    ∀ (f2 : StreamFile) (range : Option String),
      (streamTrack f2 range).status = 200 ∨ (streamTrack f2 range).status = 206 := by
  have hmain := streamTrack_range_eq f hdr g1 g2 h
  refine ⟨by rw [hmain], by rw [hmain]; rfl, by rw [hmain]; rfl, ?_⟩
  intro f2 range
  cases range with
  | none => left; rfl
  | some s =>
    by_cases hs : s = ""
    · subst hs; left; rfl
    · cases hm : rangeMatch s with
      | none => left; simp [streamTrack, hs, hm]
      | some caps => right; simp [streamTrack, hs, hm]

/-- C9 witness: the out-of-range request bytes equals 100 hyphen 200
against a 16 byte file is still answered 206, with Content-Range bytes
100-200/16 and Content-Length 101 taken from the requested numbers. -/
theorem streamTrack_no416_witness :
    (streamTrack ⟨"0123456789abcdef".toList, ""⟩ (some "bytes=100-200")).status = 206 ∧
    (streamTrack ⟨"0123456789abcdef".toList, ""⟩ (some "bytes=100-200")).header
        "Content-Range" = some "bytes 100-200/16" ∧
    (streamTrack ⟨"0123456789abcdef".toList, ""⟩ (some "bytes=100-200")).header
        "Content-Length" = some "101" ∧
    ∀ (f2 : StreamFile) (range : Option String),
      (streamTrack f2 range).status = 200 ∨ (streamTrack f2 range).status = 206 := by
  have h := streamTrack_no416 ⟨"0123456789abcdef".toList, ""⟩ "bytes=100-200" "100" "200"
    (by decide)
  exact ⟨h.1, by rw [h.2.1]; rfl, by rw [h.2.2.1]; rfl, h.2.2.2⟩

/-- On a well-formed float numeral the parseFloat model returns exactly
the value of the numeral. -/
theorem parseFloatDD_of_spec (cs : List Char) (q : ℚ) (h : specFloatVal? cs = some q) :
    parseFloatDD cs = JsNum.num q := by
  simp only [specFloatVal?, List.span_eq_take_drop] at h
  simp only [parseFloatDD, List.span_eq_take_drop]
  by_cases he : (cs.takeWhile Char.isDigit).isEmpty
  · simp [he] at h
  · simp only [he, Bool.false_eq_true, if_false] at h ⊢
    split at h
    next heq =>
      rw [heq]
      simpa using h
    next fp heq =>
      rw [heq]
      by_cases hfp : fp.isEmpty
      · simp [hfp] at h
      · simp only [hfp, Bool.false_eq_true, if_false] at h
        by_cases hall : fp.all Char.isDigit
        · simp only [hall, if_pos] at h
          have htw : fp.takeWhile Char.isDigit = fp :=
            List.takeWhile_eq_self_iff.mpr (by simpa [List.all_eq_true] using hall)
          simpa [List.span_eq_take_drop, htw] using h
        · simp [hall] at h
    next => exact absurd h (by simp)

/-- C3 counterexample: the line bracket-download-bracket space 1.2.3
percent does not contain the specification pattern (1.2.3 is not a float
numeral and no float numeral in the line is followed by the percent sign),
yet parseProgress does not return the no-value result: the capture 1.2.3
is fed to parseFloat, which parses its prefix 1.2. -/
theorem parseProgress_counterexample :
    specHasProgressPattern "[download] 1.2.3%" = false ∧
    parseProgress "[download] 1.2.3%" = some (JsNum.num (mkRat 6 5)) := by decide

/-- C3 (amended): parseProgress is total; when the first match of the code
pattern (bracket-download-bracket, whitespace, a digits-and-dots token,
percent) captures a well-formed nonnegative float numeral P, the numeral
value P is returned, tolerating varying whitespace and decimal precision;
when the line has no such match, no value is returned. (When the captured
token is not a well-formed numeral, parseFloat of the token is returned
instead of no value, as the counterexample shows.) -/
theorem parseProgress_spec (line : String) :
    (progressScan line.toList = none → parseProgress line = none) ∧
    ∀ tok q, progressScan line.toList = some tok → specFloatVal? tok = some q →
      parseProgress line = some (JsNum.num q) := by
  constructor
  · intro h
    simp only [parseProgress]
    rw [h]
    rfl
  · intro tok q h1 h2
    simp only [parseProgress]
    rw [h1]
    simp only [Option.map]
    rw [parseFloatDD_of_spec tok q h2]

/-- C3 witness: on the specification examples, the 45.2 line captures the
numeral 45.2 and returns 45.2 (as the exact rational 226/5), the 100 line
returns 100, and the info line has no match and returns no value. -/
theorem parseProgress_spec_witness :
    parseProgress "[download]  45.2% of 5.00MiB" = some (JsNum.num (mkRat 226 5)) ∧
    parseProgress "[download] 100% of 5.00MiB" = some (JsNum.num 100) ∧
    parseProgress "[info] Downloading video" = none :=
  ⟨(parseProgress_spec "[download]  45.2% of 5.00MiB").2
      ['4', '5', '.', '2'] (mkRat 226 5) (by decide) (by decide),
    (parseProgress_spec "[download] 100% of 5.00MiB").2
      ['1', '0', '0'] 100 (by decide) (by decide),
    (parseProgress_spec "[info] Downloading video").1 (by decide)⟩

/-- C10 counterexample: a URL that contains youtube.com/embed/ followed by
an 11 character identifier does not necessarily map to that identifier:
an earlier watch pattern wins, because the scan returns the leftmost
match. -/
theorem extractYoutubeId_embed_counterexample :
    ("https://www.youtube.com/watch?v=aaaaaaaaaaa&e=youtube.com/embed/bbbbbbbbbbb" : String) =
      "https://www.youtube.com/watch?v=aaaaaaaaaaa&e=" ++ "youtube.com/embed/" ++
        "bbbbbbbbbbb" ++ "" ∧
    "bbbbbbbbbbb".toList.length = 11 ∧
    "bbbbbbbbbbb".toList.all wordOrDash = true ∧
    extractYoutubeId
        "https://www.youtube.com/watch?v=aaaaaaaaaaa&e=youtube.com/embed/bbbbbbbbbbb" =
      some "aaaaaaaaaaa" ∧
    ("aaaaaaaaaaa" : String) ≠ "bbbbbbbbbbb" := by
  refine ⟨by decide, by decide, by decide, by decide, by decide⟩

/-- The scan of the YouTube id regex on a URL that decomposes as an
arbitrary prefix, the embed literal, an identifier of 11 word-or-hyphen
characters and an arbitrary suffix, returns that identifier, provided no
position inside that leading part matches the regex. -/
theorem ytScan_embed (s id t : List Char)
    (hlen : id.length = 11) (hword : id.all wordOrDash = true)
    (hpre : ∀ i < s.length,
      ytTryAt ((s ++ "youtube.com/embed/".toList ++ id ++ t).drop i) = none) :
    ytScan (s ++ "youtube.com/embed/".toList ++ id ++ t) = some id := by
  induction s with
  | nil =>
    have hemb : "youtube.com/embed/".toList =
        ['y', 'o', 'u', 't', 'u', 'b', 'e', '.', 'c', 'o', 'm', '/',
          'e', 'm', 'b', 'e', 'd', '/'] := by decide
    have htake : (id ++ t).take 11 = id := by rw [← hlen, List.take_left]
    rw [List.nil_append, hemb]
    simp only [List.cons_append, List.nil_append]
    simp [ytScan, ytTryAt, matchLit, String.toList, htake, hlen, hword]
  | cons c s2 ih =>
    have h0 := hpre 0 (Nat.succ_pos _)
    rw [List.drop_zero] at h0
    simp only [List.cons_append] at h0 ⊢
    rw [ytScan, h0]
    exact ih fun i hi => by
      have h1 := hpre (i + 1) (Nat.succ_lt_succ hi)
      simpa only [List.cons_append, List.drop_succ_cons] using h1

/-- C10 (amended): the embed URL form is accepted in addition to the watch
and youtu.be forms: for every URL decomposing as a prefix, then
youtube.com/embed/ followed by an 11 character identifier of word
characters or hyphens, then any suffix, extractYoutubeId returns that
identifier, provided the regex matches at no position inside the prefix
(the scan returns the leftmost match, so an earlier match would win, as
the counterexample shows). -/
theorem extractYoutubeId_embed (s id t : List Char)
    (hlen : id.length = 11) (hword : id.all wordOrDash = true)
    (hpre : ∀ i < s.length,
      ytTryAt ((s ++ "youtube.com/embed/".toList ++ id ++ t).drop i) = none) :
    extractYoutubeId (String.mk (s ++ "youtube.com/embed/".toList ++ id ++ t)) =
      some (String.mk id) := by
  have h := ytScan_embed s id t hlen hword hpre
  simp only [extractYoutubeId]
  have hts : (String.mk (s ++ "youtube.com/embed/".toList ++ id ++ t)).toList =
      s ++ "youtube.com/embed/".toList ++ id ++ t := rfl
  rw [hts, h]
  rfl

/-- C10 witness: the plain embed URL with the dQw4w9WgXcQ identifier is
mapped to that identifier. -/
theorem extractYoutubeId_embed_witness :
    extractYoutubeId (String.mk ("https://www.".toList ++ "youtube.com/embed/".toList ++
        "dQw4w9WgXcQ".toList ++ [])) = some (String.mk "dQw4w9WgXcQ".toList) :=
  extractYoutubeId_embed "https://www.".toList "dQw4w9WgXcQ".toList []
    (by decide) (by decide) (by decide)

/-- C5: when the extract-and-transcode subprocess exits with a non-zero
code, the run ends failed, the error field is the thrown message, which
contains the captured stderr content, and the catalog INSERT is never
executed, so no row is created for the external id. -/
theorem runDownload_nonzero_exit (env : Env) (task : DownloadTask) (yid fmt : String)
    (h1 : env.metaProbe = Except.ok ()) (h2 : env.dlErr = none)
    (h3 : ¬env.exitCode = 0) :
    (runDownload env task yid fmt).final.status = TaskStatus.failed ∧
    (runDownload env task yid fmt).final.error =
      some (ytExitMsg env.exitCode env.stderrText) ∧
    (∃ pre, (runDownload env task yid fmt).final.error = some (pre ++ env.stderrText)) ∧
    (runDownload env task yid fmt).insertArgs = none ∧
    (runDownload env task yid fmt).insertedRow = none := by
  simp only [runDownload, h1, h2]
  rw [if_pos h3]
  exact ⟨rfl, rfl,
    ⟨"yt-dlp exited with code " ++ toString env.exitCode ++ ": ", rfl⟩, rfl, rfl⟩

/-- C5 witness: a concrete run with exit code 1 ends failed with the
message carrying the captured stderr text, and no insert was executed. -/
theorem runDownload_nonzero_exit_witness :
    (runDownload envExit1 sampleTask "dQw4w9WgXcQ" "opus").final.status =
      TaskStatus.failed ∧
    (runDownload envExit1 sampleTask "dQw4w9WgXcQ" "opus").final.error =
      some (ytExitMsg 1 "ERROR: unable to download video data") ∧
    (∃ pre, (runDownload envExit1 sampleTask "dQw4w9WgXcQ" "opus").final.error =
      some (pre ++ "ERROR: unable to download video data")) ∧
    (runDownload envExit1 sampleTask "dQw4w9WgXcQ" "opus").insertArgs = none ∧
    (runDownload envExit1 sampleTask "dQw4w9WgXcQ" "opus").insertedRow = none :=
  runDownload_nonzero_exit envExit1 sampleTask "dQw4w9WgXcQ" "opus" rfl rfl (by decide)

/-- C7: once the run reaches the enrichment step (subprocess succeeded and
the catalog insert returned a row), the task ends completed with that row
id and a null error, whatever the outcome of the lyrics lookup and of the
lyrics insert: both enrichment effects are unconstrained here, so no
enrichment failure can change the terminal status, trackId or error. -/
theorem runDownload_enrichment_isolated (env : Env) (tasks : TaskMap) (uuid : String)
    (now : ℤ) (url yid fmt : String) (row : Track)
    (h1 : env.metaProbe = Except.ok ()) (h2 : env.dlErr = none)
    (h3 : env.exitCode = 0) (h4 : env.insertRes = Except.ok (some row)) :
    (runDownload env (createTask tasks uuid now url).1 yid fmt).final.status =
      TaskStatus.completed ∧
    (runDownload env (createTask tasks uuid now url).1 yid fmt).final.trackId =
      some row.id ∧
    (runDownload env (createTask tasks uuid now url).1 yid fmt).final.error = none ∧
    (runDownload env (createTask tasks uuid now url).1 yid fmt).insertedRow = some row := by
  have hps := progressSteps_fields env.dlLines
    { (createTask tasks uuid now url).1 with status := TaskStatus.downloading }
  simp only [runDownload, h1, h2, h3, h4]
  rw [if_neg (by simp : ¬(0 : ℤ) ≠ 0)]
  refine ⟨?_, ?_, ?_, ?_⟩ <;>
    first
      | rfl
      | exact hps.1.2.2.trans rfl

/-- C7 witness: in the concrete successful run envOk the lyrics fetch
fails with a network error, yet the task completes with the inserted row
id 1 and a null error. -/
theorem runDownload_enrichment_isolated_witness :
    (runDownload envOk (createTask [] "task-uuid-1" 1700000000000
        "https://www.youtube.com/watch?v=dQw4w9WgXcQ").1
      "dQw4w9WgXcQ" "opus").final.status = TaskStatus.completed ∧
    (runDownload envOk (createTask [] "task-uuid-1" 1700000000000
        "https://www.youtube.com/watch?v=dQw4w9WgXcQ").1
      "dQw4w9WgXcQ" "opus").final.trackId = some 1 ∧
    (runDownload envOk (createTask [] "task-uuid-1" 1700000000000
        "https://www.youtube.com/watch?v=dQw4w9WgXcQ").1
      "dQw4w9WgXcQ" "opus").final.error = none ∧
    (runDownload envOk (createTask [] "task-uuid-1" 1700000000000
        "https://www.youtube.com/watch?v=dQw4w9WgXcQ").1
      "dQw4w9WgXcQ" "opus").insertedRow = some sampleTrack :=
  runDownload_enrichment_isolated envOk [] "task-uuid-1" 1700000000000
    "https://www.youtube.com/watch?v=dQw4w9WgXcQ" "dQw4w9WgXcQ" "opus" sampleTrack
    rfl rfl rfl rfl

/-- A task state whose status, trackId and error agree with the
downloading state of a task carrying null trackId and error satisfies the
snapshot property used by the task-state invariant. -/
theorem snapshot_prop_of_fields (t0 s : DownloadTask)
    (htid : t0.trackId = none) (herr : t0.error = none)
    (h1 : s.status = TaskStatus.downloading) (h2 : s.trackId = t0.trackId)
    (h3 : s.error = t0.error) :
    (s.status = TaskStatus.downloading ∨ s.status = TaskStatus.processing) ∧
    s.error = none ∧
    (s.status = TaskStatus.downloading → s.trackId = none) ∧
    (s.status = TaskStatus.processing → s.trackId ≠ none) := by
  refine ⟨Or.inl h1, h3.trans herr, fun _ => h2.trans htid, fun hp => ?_⟩
  exact absurd (h1.symm.trans hp) (by decide)

/-- Terminal and snapshot shape of one orchestration run started on a task
with null trackId and error, for every environment whose catalog insert is
well formed: the run ends completed or failed; completed implies trackId
set and error null; failed implies error set and trackId null; every
snapshot is in downloading or processing, carries a null error, carries a
null trackId while downloading, and carries a set trackId in the
processing snapshot (the state visible during the enrichment await). -/
theorem runDownload_shape (env : Env) (t0 : DownloadTask) (yid fmt : String)
    (hwf : env.InsertWF) (htid : t0.trackId = none) (herr : t0.error = none) :
    ((runDownload env t0 yid fmt).final.status = TaskStatus.completed ∨
      (runDownload env t0 yid fmt).final.status = TaskStatus.failed) ∧
    ((runDownload env t0 yid fmt).final.status = TaskStatus.completed →
      (runDownload env t0 yid fmt).final.trackId ≠ none ∧
      (runDownload env t0 yid fmt).final.error = none) ∧
    ((runDownload env t0 yid fmt).final.status = TaskStatus.failed →
      (runDownload env t0 yid fmt).final.error ≠ none ∧
      (runDownload env t0 yid fmt).final.trackId = none) ∧
    ∀ s ∈ (runDownload env t0 yid fmt).snapshots,
      (s.status = TaskStatus.downloading ∨ s.status = TaskStatus.processing) ∧
      s.error = none ∧
      (s.status = TaskStatus.downloading → s.trackId = none) ∧
      (s.status = TaskStatus.processing → s.trackId ≠ none) := by
  have hps := progressSteps_fields env.dlLines { t0 with status := TaskStatus.downloading }
  have hsnap : ∀ s ∈ ({ t0 with status := TaskStatus.downloading } ::
      (progressSteps { t0 with status := TaskStatus.downloading } env.dlLines).2 ++
        [(progressSteps { t0 with status := TaskStatus.downloading } env.dlLines).1]),
      (s.status = TaskStatus.downloading ∨ s.status = TaskStatus.processing) ∧
      s.error = none ∧
      (s.status = TaskStatus.downloading → s.trackId = none) ∧
      (s.status = TaskStatus.processing → s.trackId ≠ none) := by
    intro s hs
    rcases List.mem_cons.mp hs with h | h
    · subst h
      exact snapshot_prop_of_fields t0 _ htid herr rfl rfl rfl
    · rcases List.mem_append.mp h with h | h
      · exact snapshot_prop_of_fields t0 s htid herr
          (hps.2 s h).1 (hps.2 s h).2.1 (hps.2 s h).2.2
      · rw [List.mem_singleton.mp h]
        exact snapshot_prop_of_fields t0 _ htid herr hps.1.1 hps.1.2.1 hps.1.2.2
  rcases hmp : env.metaProbe with e | u
  · unfold runDownload
    rw [hmp]
    refine ⟨Or.inr rfl, fun hc => TaskStatus.noConfusion hc,
      fun _ => ⟨fun h => Option.noConfusion h, htid⟩, ?_⟩
    intro s hs
    rw [List.mem_singleton.mp hs]
    exact snapshot_prop_of_fields t0 _ htid herr rfl rfl rfl
  · rcases hde : env.dlErr with _ | e
    · by_cases hec : env.exitCode = 0
      · rcases hins : env.insertRes with e | o
        · unfold runDownload
          rw [hmp, hde]
          simp only [if_neg (not_not_intro hec)]
          rw [hins]
          refine ⟨Or.inr rfl, fun hc => TaskStatus.noConfusion hc,
            fun _ => ⟨fun h => Option.noConfusion h, hps.1.2.1.trans htid⟩, hsnap⟩
        · cases o with
          | none => exact absurd hins hwf
          | some row =>
            unfold runDownload
            rw [hmp, hde]
            simp only [if_neg (not_not_intro hec)]
            rw [hins]
            refine ⟨Or.inl rfl,
              fun _ => ⟨fun h => Option.noConfusion h, hps.1.2.2.trans herr⟩,
              fun hc => TaskStatus.noConfusion hc, ?_⟩
            intro s hs
            rcases List.mem_cons.mp hs with h | h
            · rw [h]
              exact snapshot_prop_of_fields t0 _ htid herr rfl rfl rfl
            · rcases List.mem_append.mp h with h | h
              · exact snapshot_prop_of_fields t0 s htid herr
                  (hps.2 s h).1 (hps.2 s h).2.1 (hps.2 s h).2.2
              · rcases List.mem_cons.mp h with h | h
                · rw [h]
                  exact snapshot_prop_of_fields t0 _ htid herr
                    hps.1.1 hps.1.2.1 hps.1.2.2
                · rw [List.mem_singleton.mp h]
                  exact ⟨Or.inr rfl, hps.1.2.2.trans herr,
                    fun hd => TaskStatus.noConfusion hd,
                    fun _ => fun h => Option.noConfusion h⟩
      · unfold runDownload
        rw [hmp, hde]
        simp only [if_pos hec]
        refine ⟨?_, ?_, ?_, hsnap⟩
        · exact Or.inr trivial
        · exact fun hc => TaskStatus.noConfusion hc
        · exact fun _ => ⟨fun h => Option.noConfusion h, hps.1.2.1.trans htid⟩
    · unfold runDownload
      rw [hmp, hde]
      refine ⟨Or.inr rfl, fun hc => TaskStatus.noConfusion hc,
        fun _ => ⟨fun h => Option.noConfusion h, hps.1.2.1.trans htid⟩, hsnap⟩

/-- C1 counterexample: in a concrete successful run the claim that every
task in a non-terminal status has a null trackId fails: the snapshot
observable during the enrichment await has status processing, the trackId
already set to the inserted row id 1, and a null error. -/
theorem runDownload_nonterminal_counterexample :
    ∃ s ∈ (runDownload envOk sampleTask "dQw4w9WgXcQ" "opus").snapshots,
      s.status = TaskStatus.processing ∧ s.trackId = some 1 ∧ s.error = none := by
  decide

/-- C1 (amended): a task is created pending with null trackId and error;
when the orchestration run on it terminates (under the database fact that
a successful INSERT RETURNING yields a row), exactly one terminal shape
holds: completed with trackId set and error null, or failed with error set
and trackId null; and every non-terminal snapshot of the run has a null
error and a null trackId while downloading, but the processing snapshot
visible during the enrichment await already carries the set trackId. -/
theorem createTask_runDownload_invariant (env : Env) (tasks : TaskMap) (uuid : String)
    (now : ℤ) (url yid fmt : String) (hwf : env.InsertWF) :
    ((createTask tasks uuid now url).1.status = TaskStatus.pending ∧
      (createTask tasks uuid now url).1.trackId = none ∧
      (createTask tasks uuid now url).1.error = none) ∧
    ((runDownload env (createTask tasks uuid now url).1 yid fmt).final.status =
        TaskStatus.completed ∨
      (runDownload env (createTask tasks uuid now url).1 yid fmt).final.status =
        TaskStatus.failed) ∧
    ((runDownload env (createTask tasks uuid now url).1 yid fmt).final.status =
        TaskStatus.completed →
      (runDownload env (createTask tasks uuid now url).1 yid fmt).final.trackId ≠ none ∧
      (runDownload env (createTask tasks uuid now url).1 yid fmt).final.error = none) ∧
    ((runDownload env (createTask tasks uuid now url).1 yid fmt).final.status =
        TaskStatus.failed →
      (runDownload env (createTask tasks uuid now url).1 yid fmt).final.error ≠ none ∧
      (runDownload env (createTask tasks uuid now url).1 yid fmt).final.trackId = none) ∧
    ∀ s ∈ (runDownload env (createTask tasks uuid now url).1 yid fmt).snapshots,
      (s.status = TaskStatus.downloading ∨ s.status = TaskStatus.processing) ∧
      s.error = none ∧
      (s.status = TaskStatus.downloading → s.trackId = none) ∧
      (s.status = TaskStatus.processing → s.trackId ≠ none) :=
  ⟨⟨rfl, rfl, rfl⟩, runDownload_shape env (createTask tasks uuid now url).1 yid fmt hwf rfl rfl⟩

/-- C1 witness: the invariant instantiated at the concrete successful
environment and a concrete fresh task. -/
theorem createTask_runDownload_invariant_witness :
    ((createTask [] "task-uuid-1" 1700000000000
        "https://www.youtube.com/watch?v=dQw4w9WgXcQ").1.status = TaskStatus.pending ∧
      (createTask [] "task-uuid-1" 1700000000000
        "https://www.youtube.com/watch?v=dQw4w9WgXcQ").1.trackId = none ∧
      (createTask [] "task-uuid-1" 1700000000000
        "https://www.youtube.com/watch?v=dQw4w9WgXcQ").1.error = none) ∧
    ((runDownload envOk (createTask [] "task-uuid-1" 1700000000000
          "https://www.youtube.com/watch?v=dQw4w9WgXcQ").1 "dQw4w9WgXcQ" "opus").final.status =
        TaskStatus.completed ∨
      (runDownload envOk (createTask [] "task-uuid-1" 1700000000000
          "https://www.youtube.com/watch?v=dQw4w9WgXcQ").1 "dQw4w9WgXcQ" "opus").final.status =
        TaskStatus.failed) ∧
    ((runDownload envOk (createTask [] "task-uuid-1" 1700000000000
          "https://www.youtube.com/watch?v=dQw4w9WgXcQ").1 "dQw4w9WgXcQ" "opus").final.status =
        TaskStatus.completed →
      (runDownload envOk (createTask [] "task-uuid-1" 1700000000000
          "https://www.youtube.com/watch?v=dQw4w9WgXcQ").1 "dQw4w9WgXcQ"
            "opus").final.trackId ≠ none ∧
      (runDownload envOk (createTask [] "task-uuid-1" 1700000000000
          "https://www.youtube.com/watch?v=dQw4w9WgXcQ").1 "dQw4w9WgXcQ"
            "opus").final.error = none) ∧
    ((runDownload envOk (createTask [] "task-uuid-1" 1700000000000
          "https://www.youtube.com/watch?v=dQw4w9WgXcQ").1 "dQw4w9WgXcQ" "opus").final.status =
        TaskStatus.failed →
      (runDownload envOk (createTask [] "task-uuid-1" 1700000000000
          "https://www.youtube.com/watch?v=dQw4w9WgXcQ").1 "dQw4w9WgXcQ"
            "opus").final.error ≠ none ∧
      (runDownload envOk (createTask [] "task-uuid-1" 1700000000000
          "https://www.youtube.com/watch?v=dQw4w9WgXcQ").1 "dQw4w9WgXcQ"
            "opus").final.trackId = none) ∧
    ∀ s ∈ (runDownload envOk (createTask [] "task-uuid-1" 1700000000000
        "https://www.youtube.com/watch?v=dQw4w9WgXcQ").1 "dQw4w9WgXcQ" "opus").snapshots,
      (s.status = TaskStatus.downloading ∨ s.status = TaskStatus.processing) ∧
      s.error = none ∧
      (s.status = TaskStatus.downloading → s.trackId = none) ∧
      (s.status = TaskStatus.processing → s.trackId ≠ none) :=
  createTask_runDownload_invariant envOk [] "task-uuid-1" 1700000000000
    "https://www.youtube.com/watch?v=dQw4w9WgXcQ" "dQw4w9WgXcQ" "opus"
    (by intro h; simp [envOk] at h)

end Musee
